import Mathlib

/-!
Verification of the Lex/Bedrock image-generation Lambda
(`src/LexBedrockBot.py`) against its natural-language specification.

The Python handler is shallowly embedded: the external collaborators
(Bedrock runtime, the imaging library, S3 upload/presign, the link
shortener, and the random suffix draw) are supplied as an `Env` record of
call outcomes, and the handler is a pure function of the event and that
environment.  Python exceptions are modelled by the `PyErr` inductive and
`Except`; the handler's `try/except ClientError` is the only catch.  A
`Trace` records which external calls were attempted, so that claims about
"no upload was performed" and "a single invocation attempt" are statable.
-/

namespace LexBedrockBot

set_option maxRecDepth 16384

/-- Session-attribute and request-attribute maps (`dict[str, str]`). -/
abbrev Attrs := List (String × String)

/-- A Lex message object: `{'contentType': ..., 'content': ...}`. -/
structure Message where
  contentType : String
  content : String
deriving DecidableEq

/-- The intent object inside the event's `sessionState`; the handler only
touches its `state` field, the rest is opaque pass-through (modelled by
`name`). -/
structure Intent where
  name : String
  state : String
deriving DecidableEq

/-- The `dialogAction` object of a response. -/
structure DialogAction where
  type : String
deriving DecidableEq

/-- The event's `sessionState`: `sessionAttributes` may be absent
(the code tests `'sessionAttributes' in sessionState`). -/
structure SessionState where
  sessionAttributes : Option Attrs
  intent : Intent
deriving DecidableEq

/-- The inbound Lex event (`intent_request`): per the Lex contract it
always carries `sessionState`, `sessionId` and `inputTranscript`;
`requestAttributes` may be absent (the code tests for it). -/
structure IntentRequest where
  sessionState : SessionState
  sessionId : String
  requestAttributes : Option Attrs
  inputTranscript : String
deriving DecidableEq

/-- The `sessionState` object built by `close` for the response. -/
structure RespSessionState where
  sessionAttributes : Attrs
  dialogAction : DialogAction
  intent : Intent
deriving DecidableEq

/-- The response envelope returned by `close`. -/
structure LexResponse where
  sessionState : RespSessionState
  messages : List Message
  sessionId : String
  requestAttributes : Option Attrs
deriving DecidableEq

/-- Python exceptions that can arise in the handler.  Only
`botocore.exceptions.ClientError` is caught by `lambda_handler`;
`keyError`/`indexError` model lookup faults on the decoded response,
`typeError` models `bytes(None, "utf-8")`, `imageError` models
base64/PIL decode-save failures, `shortenError` models pyshorteners
failures — none of those are `ClientError`. -/
inductive PyErr where
  | clientError (msg : String)
  | keyError (key : String)
  | indexError
  | typeError (msg : String)
  | imageError (msg : String)
  | shortenError (msg : String)
deriving DecidableEq

/-- Decidable equality for `Except`, needed to evaluate handler results
in concrete instances. -/
instance {ε α : Type} [DecidableEq ε] [DecidableEq α] :
    DecidableEq (Except ε α) := fun x y =>
  match x, y with
  | .ok a, .ok b =>
    if h : a = b then .isTrue (by rw [h]) else .isFalse (by simp [h])
  | .error a, .error b =>
    if h : a = b then .isTrue (by rw [h]) else .isFalse (by simp [h])
  | .ok _, .error _ => .isFalse (by simp)
  | .error _, .ok _ => .isFalse (by simp)

/-- Whether an exception is a `botocore` `ClientError` (the only class the
handler's `except` clause matches). -/
def PyErr.isClientError : PyErr → Bool
  | .clientError _ => true
  | _ => false

/-- One artifact record of the model response; its `base64` field may be
absent (`.get("base64")` then yields `None`). -/
structure Artifact where
  base64 : Option String
deriving DecidableEq

/-- The decoded model response body; the `artifacts` key may be absent. -/
structure ResponseBody where
  artifacts : Option (List Artifact)
deriving DecidableEq

/-- One weighted text prompt.  The weights in the source are the exact
floats `1.0` and `-1.0`; they are modelled by the integers `1` and `-1`. -/
structure TextPrompt where
  text : String
  weight : Int
deriving DecidableEq

/-- The request body assembled for `invoke_model` (before JSON
serialisation, which is injective on this record and dropped). -/
structure GenRequest where
  text_prompts : List TextPrompt
  cfg_scale : Nat
  seed : Nat
  steps : Nat
  style_preset : String
deriving DecidableEq

/-- The fixed negative prompt list of `lambda_handler`. -/
def negative_prompts : List String :=
  ["poorly rendered",
   "poor background details",
   "poorly drawn",
   "disfigured features"]

/-- Assembly of the generation request inside `lambda_handler`'s `try`
block: one positive prompt from the utterance plus the fixed negative
prompts, and the fixed numeric parameters. -/
def buildRequest (style : String) (prompt : String) : GenRequest :=
  { text_prompts :=
      [⟨prompt, 1⟩] ++ negative_prompts.map (fun negprompt => ⟨negprompt, -1⟩),
    cfg_scale := 5,
    seed := 5450,
    steps := 70,
    style_preset := style }

/-- Little-endian decimal digits of `n`, with explicit fuel so the
recursion is structural (`decDigits` supplies `n` itself as fuel, which
always suffices). -/
def digitsAux : Nat → Nat → List Nat
  | 0, _ => []
  | _ + 1, 0 => []
  | fuel + 1, n + 1 => (n + 1) % 10 :: digitsAux fuel ((n + 1) / 10)

/-- Little-endian decimal digits of `n`. -/
def decDigits (n : Nat) : List Nat := digitsAux n n

/-- The character of one decimal digit. -/
def digitChar (d : Nat) : Char := Char.ofNat (48 + d)

/-- Decimal rendering of a natural number, modelling Python's `str` on the
non-negative integers returned by `random.randint`. -/
def natToDecimalString (n : Nat) : String :=
  if n = 0 then "0" else String.mk ((decDigits n).reverse.map digitChar)

/-- The S3 object key built in `generate_and_save_image`:
`'generatedImage' + '_' + str(suffix) + '.png'`. -/
def tempFileName (suffix : Nat) : String :=
  "generatedImage" ++ "_" ++ natToDecimalString suffix ++ ".png"

/-- Outcomes of the external collaborators for one invocation:
the deployment's style preset, the Bedrock `invoke_model` outcome as a
function of the request, the `random.randint` draw, the
decode/open/save outcome as a function of the base64 payload, the S3
`upload_file` and `generate_presigned_url` outcomes as functions of the
object key, and the TinyURL `short` outcome as a function of the long
URL. -/
structure Env where
  style_preset : String
  invokeOutcome : GenRequest → Except PyErr ResponseBody
  randomSuffix : Nat
  imageOutcome : String → Except PyErr Unit
  uploadOutcome : String → Except PyErr Unit
  presignOutcome : String → Except PyErr String
  shortenOutcome : String → Except PyErr String

/-- Record of which external calls one invocation attempted. -/
structure Trace where
  invokeCalls : Nat
  uploadAttempts : List String
  presignCalls : Nat
  shortenCalls : Nat
deriving DecidableEq

/-- `get_session_attributes`: reads `sessionState` unconditionally, then
returns its `sessionAttributes` when the key is present and `{}`
otherwise. -/
def get_session_attributes (intent_request : IntentRequest) : Attrs :=
  let sessionState := intent_request.sessionState
  match sessionState.sessionAttributes with
  | some attrs => attrs
  | none => []

/-- `close`: first mutates the input event, setting
`intent_request['sessionState']['intent']['state']` to the fulfillment
state, then builds the response envelope from the mutated event.  The
first component of the result is the event as `close` leaves it (Python
mutates it in place), the second is the returned envelope. -/
def close (intent_request : IntentRequest) (session_attributes : Attrs)
    (fulfillment_state : String) (message : Message) :
    IntentRequest × LexResponse :=
  let mutated :=
    { intent_request with
        sessionState :=
          { intent_request.sessionState with
              intent :=
                { intent_request.sessionState.intent with
                    state := fulfillment_state } } }
  (mutated,
   { sessionState :=
       { sessionAttributes := session_attributes,
         dialogAction := ⟨"Close"⟩,
         intent := mutated.sessionState.intent },
     messages := [message],
     sessionId := mutated.sessionId,
     requestAttributes := mutated.requestAttributes })

/-- The fixed prefix of the success message built in
`generate_and_save_image` (the short URL is appended to it). -/
def msgPrefix : String :=
  "An image has been generated and saved in a S3 bucket. A s3 presigned url has been generated and image can be downloaded from the url "

/-- `generate_and_save_image`: decodes the base64 payload and opens it as
an image (`typeError` when the payload is `None`, since
`bytes(None, "utf-8")` raises before decoding), saves it to a temp file,
uploads it under the random key, mints the pre-signed URL, shortens it,
and closes with `"Fulfilled"`.  Any step's exception aborts the rest;
nothing here is caught. -/
def generate_and_save_image (env : Env) (event : IntentRequest)
    (base_64_img_str : Option String) (t : Trace) :
    Except PyErr LexResponse × Trace :=
  let session_attributes := get_session_attributes event
  match base_64_img_str with
  | none => (.error (.typeError "encoding without a string argument"), t)
  | some payload =>
    match env.imageOutcome payload with
    | .error e => (.error e, t)
    | .ok _ =>
      let temp_file_name := tempFileName env.randomSuffix
      let t1 := { t with uploadAttempts := t.uploadAttempts ++ [temp_file_name] }
      match env.uploadOutcome temp_file_name with
      | .error e => (.error e, t1)
      | .ok _ =>
        let t2 := { t1 with presignCalls := t1.presignCalls + 1 }
        match env.presignOutcome temp_file_name with
        | .error e => (.error e, t2)
        | .ok presignedurl =>
          let t3 := { t2 with shortenCalls := t2.shortenCalls + 1 }
          match env.shortenOutcome presignedurl with
          | .error e => (.error e, t3)
          | .ok shorturl =>
            let message : Message := ⟨"PlainText", msgPrefix ++ shorturl⟩
            (.ok (close event session_attributes "Fulfilled" message).2, t3)

/-- The body of `lambda_handler`'s `try` block: invoke the model, read
`response_body["artifacts"][0].get("base64")` (a `KeyError` when
`artifacts` is absent, an `IndexError` when it is empty), then persist. -/
def tryBody (env : Env) (event : IntentRequest) (request : GenRequest) :
    Except PyErr LexResponse × Trace :=
  let t0 : Trace := ⟨1, [], 0, 0⟩
  match env.invokeOutcome request with
  | .error e => (.error e, t0)
  | .ok response_body =>
    match response_body.artifacts with
    | none => (.error (.keyError "artifacts"), t0)
    | some [] => (.error .indexError, t0)
    | some (first :: _) =>
      generate_and_save_image env event first.base64 t0

/-- `lambda_handler`: builds the request from the utterance, runs the
`try` block, and catches `ClientError` only — the `except` clause logs
and falls off the end of the function, i.e. returns `None` (`.ok none`).
Every other exception propagates to the caller (`.error e`). -/
def lambda_handler (env : Env) (event : IntentRequest) :
    Except PyErr (Option LexResponse) × Trace :=
  let prompt := event.inputTranscript
  let request := buildRequest env.style_preset prompt
  match tryBody env event request with
  | (.ok resp, t) => (.ok (some resp), t)
  | (.error e, t) =>
    if e.isClientError then (.ok none, t) else (.error e, t)

/-- Whether a handler result is a returned response envelope at all. -/
def returnsSomeEnvelope : Except PyErr (Option LexResponse) → Bool
  | .ok (some _) => true
  | _ => false

/-- Whether a handler result is a returned envelope whose intent state is
`s`. -/
def returnsEnvelopeWithState (s : String) :
    Except PyErr (Option LexResponse) → Bool
  | .ok (some resp) => resp.sessionState.intent.state == s
  | _ => false

/-- Proof gadget: the value of a little-endian digit list in base 10. -/
def ofDigits10 : List Nat → Nat
  | [] => 0
  | d :: ds => d + 10 * ofDigits10 ds

/-- Proof gadget: the number a decimal character list denotes (used only
to invert `natToDecimalString`). -/
def decimalValueL (l : List Char) : Nat :=
  ofDigits10 ((l.map (fun c => c.toNat - 48)).reverse)

/-- A success environment: the model returns `arts`, imaging, upload and
presign succeed, and the shortener returns `shortOut`. -/
def mkOkEnv (suffix : Nat) (arts : Option (List Artifact))
    (shortOut : Except PyErr String) : Env :=
  { style_preset := "photographic",
    invokeOutcome := fun _ => .ok ⟨arts⟩,
    randomSuffix := suffix,
    imageOutcome := fun _ => .ok (),
    uploadOutcome := fun _ => .ok (),
    presignOutcome := fun key => .ok ("https://genai-bucket.s3.amazonaws.com/" ++ key),
    shortenOutcome := fun _ => shortOut }

/-- A well-formed inbound event with the given session id and utterance. -/
def mkEvent (sid : String) (utterance : String) : IntentRequest :=
  { sessionState :=
      { sessionAttributes := some [("channel", "web")],
        intent := ⟨"GenerateImageIntent", "ReadyForFulfillment"⟩ },
    sessionId := sid,
    requestAttributes := none,
    inputTranscript := utterance }

/-- The envelope the handler returns for `mkEvent sid` on the success path
when the shortener returned `shortu`. -/
def mkFulfilledResponse (sid : String) (shortu : String) : LexResponse :=
  { sessionState :=
      { sessionAttributes := [("channel", "web")],
        dialogAction := ⟨"Close"⟩,
        intent := ⟨"GenerateImageIntent", "Fulfilled"⟩ },
    messages := [⟨"PlainText", msgPrefix ++ shortu⟩],
    sessionId := sid,
    requestAttributes := none }

def eventC1 : IntentRequest := mkEvent "session-c1" "a red bicycle"

def envC1ok : Env :=
  mkOkEnv 11 (some [⟨some "aGVsbG8="⟩]) (.ok "https://tinyurl.com/abc")

def envC1bad : Env :=
  { envC1ok with
      invokeOutcome := fun _ => .error (.clientError "ThrottlingException") }

def respC1 : LexResponse :=
  mkFulfilledResponse "session-c1" "https://tinyurl.com/abc"

def eventC3 : IntentRequest := mkEvent "session-c3" "a lighthouse in a storm"

def envC3 : Env :=
  mkOkEnv 42 (some [⟨some "cGF5bG9hZA=="⟩])
    (.error (.shortenError "tinyurl.com unreachable"))

def eventC4 : IntentRequest := mkEvent "session-c4" "an empty artifact list"

def envC4 : Env := mkOkEnv 13 (some []) (.ok "https://tinyurl.com/c4")

def eventC4x : IntentRequest := mkEvent "session-c4x" "zero artifacts again"

def envC4x : Env := mkOkEnv 14 (some []) (.ok "https://tinyurl.com/c4x")

def eventC5w : IntentRequest := mkEvent "session-c5w" "a service fault"

def envC5w : Env :=
  { mkOkEnv 15 (some [⟨some "eA=="⟩]) (.ok "https://tinyurl.com/c5") with
      invokeOutcome := fun _ => .error (.clientError "ServiceUnavailableException") }

def eventC5x : IntentRequest := mkEvent "session-c5x" "another service fault"

def envC5x : Env :=
  { mkOkEnv 16 (some [⟨some "eQ=="⟩]) (.ok "https://tinyurl.com/c5x") with
      invokeOutcome := fun _ => .error (.clientError "AccessDeniedException") }

def eventC6 : IntentRequest := mkEvent "session-c6" "the same utterance twice"

def envC6a : Env := mkOkEnv 5 (some [⟨some "Zg=="⟩]) (.ok "https://tinyurl.com/c6a")

def envC6b : Env :=
  { mkOkEnv 5 (some [⟨some "Zg=="⟩]) (.ok "https://tinyurl.com/c6b") with
      presignOutcome := fun key => .ok ("https://other.s3.amazonaws.com/" ++ key) }

def eventC6w : IntentRequest := mkEvent "session-c6w" "the same utterance twice"

def envC6w1 : Env := mkOkEnv 3 (some [⟨some "Zg=="⟩]) (.ok "https://tinyurl.com/c6w")

def envC6w2 : Env := mkOkEnv 4 (some [⟨some "Zg=="⟩]) (.ok "https://tinyurl.com/c6w")

def reqC7 : IntentRequest :=
  { sessionState :=
      { sessionAttributes := some [("locale", "en_US")],
        intent := ⟨"GenerateImageIntent", "InProgress"⟩ },
    sessionId := "session-c7",
    requestAttributes := some [("x-amz-header", "trace-1")],
    inputTranscript := "a castle at dusk" }

def msgC7 : Message := ⟨"PlainText", "done"⟩

def reqC8 : IntentRequest :=
  { sessionState :=
      { sessionAttributes := some [("k", "v")],
        intent := ⟨"GenerateImageIntent", "ReadyForFulfillment"⟩ },
    sessionId := "session-c8",
    requestAttributes := none,
    inputTranscript := "hello" }

def eventC10 : IntentRequest := mkEvent "session-c10" "a mountain lake"

def envC10 : Env :=
  mkOkEnv 7 (some [⟨some "cGluZw=="⟩]) (.ok "https://tinyurl.com/xyz")

def respC10 : LexResponse :=
  mkFulfilledResponse "session-c10" "https://tinyurl.com/xyz"

theorem ofDigits10_digitsAux :
    ∀ (fuel n : Nat), n ≤ fuel → ofDigits10 (digitsAux fuel n) = n := by
  intro fuel
  induction fuel with
  | zero =>
    intro n hn
    have hn0 : n = 0 := Nat.le_zero.mp hn
    subst hn0
    rfl
  | succ f ih =>
    intro n hn
    match n with
    | 0 => rfl
    | m + 1 =>
      have hdiv : (m + 1) / 10 ≤ f := by
        have h1 : (m + 1) / 10 < m + 1 := Nat.div_lt_self (Nat.succ_pos m) (by omega)
        omega
      show ofDigits10 ((m + 1) % 10 :: digitsAux f ((m + 1) / 10)) = m + 1
      rw [ofDigits10, ih ((m + 1) / 10) hdiv, Nat.mod_add_div]

theorem digitsAux_lt_ten :
    ∀ (fuel n d : Nat), d ∈ digitsAux fuel n → d < 10 := by
  intro fuel
  induction fuel with
  | zero =>
    intro n d hd
    simp [digitsAux] at hd
  | succ f ih =>
    intro n d hd
    match n with
    | 0 => simp [digitsAux] at hd
    | m + 1 =>
      rw [digitsAux] at hd
      rcases List.mem_cons.mp hd with h | h
      · subst h
        exact Nat.mod_lt _ (by omega)
      · exact ih _ _ h

theorem toNat_digitChar (d : Nat) (hd : d < 10) :
    (digitChar d).toNat - 48 = d := by
  interval_cases d <;> decide

theorem decimalValueL_natToDecimalString (n : Nat) :
    decimalValueL (natToDecimalString n).data = n := by
  by_cases h0 : n = 0
  · subst h0
    decide
  · rw [natToDecimalString, if_neg h0]
    show decimalValueL ((decDigits n).reverse.map digitChar) = n
    rw [decimalValueL, List.map_map]
    have hmap :
        (decDigits n).reverse.map ((fun c => c.toNat - 48) ∘ digitChar) =
          (decDigits n).reverse.map id := by
      apply List.map_congr_left
      intro d hdmem
      have hd10 : d < 10 :=
        digitsAux_lt_ten n n d (List.mem_reverse.mp hdmem)
      exact toNat_digitChar d hd10
    rw [hmap, List.map_id, List.reverse_reverse]
    exact ofDigits10_digitsAux n n (Nat.le_refl n)

theorem natToDecimalString_inj {a b : Nat}
    (h : natToDecimalString a = natToDecimalString b) : a = b := by
  have ha := decimalValueL_natToDecimalString a
  have hb := decimalValueL_natToDecimalString b
  rw [h, hb] at ha
  exact ha.symm

theorem string_data_append (a b : String) : (a ++ b).data = a.data ++ b.data := rfl

theorem tempFileName_inj {a b : Nat}
    (h : tempFileName a = tempFileName b) : a = b := by
  apply natToDecimalString_inj
  have hd := congrArg String.data h
  rw [tempFileName, tempFileName] at hd
  rw [string_data_append, string_data_append, string_data_append,
    string_data_append, string_data_append, string_data_append] at hd
  have h1 := List.append_cancel_right hd
  have h2 := List.append_cancel_left h1
  exact String.ext h2

theorem gasi_ok_fields (env : Env) (event : IntentRequest)
    (b64 : Option String) (t : Trace) (r : LexResponse) (t' : Trace)
    (h : generate_and_save_image env event b64 t = (.ok r, t')) :
    r.sessionState.intent.state = "Fulfilled" ∧
      r.sessionState.dialogAction = ⟨"Close"⟩ := by
  unfold generate_and_save_image at h
  cases b64 with
  | none => simp [Prod.ext_iff] at h
  | some payload =>
    dsimp only at h
    cases him : env.imageOutcome payload with
    | error e => rw [him] at h; simp [Prod.ext_iff] at h
    | ok u =>
      rw [him] at h
      dsimp only at h
      cases hup : env.uploadOutcome (tempFileName env.randomSuffix) with
      | error e => rw [hup] at h; simp [Prod.ext_iff] at h
      | ok u2 =>
        rw [hup] at h
        dsimp only at h
        cases hps : env.presignOutcome (tempFileName env.randomSuffix) with
        | error e => rw [hps] at h; simp [Prod.ext_iff] at h
        | ok presignedurl =>
          rw [hps] at h
          dsimp only at h
          cases hsh : env.shortenOutcome presignedurl with
          | error e => rw [hsh] at h; simp [Prod.ext_iff] at h
          | ok shorturl =>
            rw [hsh] at h
            dsimp only at h
            simp only [Prod.ext_iff, Except.ok.injEq] at h
            rw [← h.1]
            simp [close]

theorem tryBody_ok_fields (env : Env) (event : IntentRequest)
    (request : GenRequest) (r : LexResponse) (t' : Trace)
    (h : tryBody env event request = (.ok r, t')) :
    r.sessionState.intent.state = "Fulfilled" ∧
      r.sessionState.dialogAction = ⟨"Close"⟩ := by
  unfold tryBody at h
  cases hin : env.invokeOutcome request with
  | error e => rw [hin] at h; simp [Prod.ext_iff] at h
  | ok response_body =>
    rw [hin] at h
    dsimp only at h
    cases harts : response_body.artifacts with
    | none => rw [harts] at h; simp [Prod.ext_iff] at h
    | some arts =>
      rw [harts] at h
      cases arts with
      | nil => simp [Prod.ext_iff] at h
      | cons first rest => exact gasi_ok_fields env event _ _ r t' h

theorem handler_some_fields (env : Env) (event : IntentRequest)
    (r : LexResponse)
    (h : (lambda_handler env event).1 = .ok (some r)) :
    r.sessionState.intent.state = "Fulfilled" ∧
      r.sessionState.dialogAction = ⟨"Close"⟩ := by
  unfold lambda_handler at h
  dsimp only at h
  rcases htb : tryBody env event (buildRequest env.style_preset event.inputTranscript)
    with ⟨res, t⟩
  rw [htb] at h
  cases res with
  | ok resp =>
    simp only at h
    have hr : resp = r := by
      simpa using h
    subst hr
    exact tryBody_ok_fields env event _ resp t htb
  | error e =>
    by_cases hce : e.isClientError <;> simp [hce] at h

theorem handler_none_clientError (env : Env) (event : IntentRequest)
    (h : (lambda_handler env event).1 = .ok none) :
    ∃ e, (tryBody env event
        (buildRequest env.style_preset event.inputTranscript)).1 = .error e ∧
      e.isClientError = true := by
  unfold lambda_handler at h
  dsimp only at h
  rcases htb : tryBody env event (buildRequest env.style_preset event.inputTranscript)
    with ⟨res, t⟩
  rw [htb] at h
  cases res with
  | ok resp => simp at h
  | error e =>
    by_cases hce : e.isClientError
    · exact ⟨e, rfl, hce⟩
    · simp [hce] at h

theorem handler_error_notClient (env : Env) (event : IntentRequest)
    (e : PyErr) (h : (lambda_handler env event).1 = .error e) :
    e.isClientError = false := by
  unfold lambda_handler at h
  dsimp only at h
  rcases htb : tryBody env event (buildRequest env.style_preset event.inputTranscript)
    with ⟨res, t⟩
  rw [htb] at h
  cases res with
  | ok resp => simp at h
  | error e0 =>
    by_cases hce : e0.isClientError
    · simp [hce] at h
    · simp [hce] at h
      subst h
      simpa using hce

theorem gasi_uploadAttempts (env : Env) (event : IntentRequest)
    (b64 : Option String) (t : Trace) :
    (generate_and_save_image env event b64 t).2.uploadAttempts = t.uploadAttempts ∨
      (generate_and_save_image env event b64 t).2.uploadAttempts =
        t.uploadAttempts ++ [tempFileName env.randomSuffix] := by
  unfold generate_and_save_image
  cases b64 with
  | none => exact Or.inl rfl
  | some payload =>
    try dsimp only
    cases him : env.imageOutcome payload with
    | error e => exact Or.inl rfl
    | ok u =>
      try dsimp only
      cases hup : env.uploadOutcome (tempFileName env.randomSuffix) with
      | error e => exact Or.inr rfl
      | ok u2 =>
        try dsimp only
        cases hps : env.presignOutcome (tempFileName env.randomSuffix) with
        | error e => exact Or.inr rfl
        | ok presignedurl =>
          try dsimp only
          cases hsh : env.shortenOutcome presignedurl with
          | error e => exact Or.inr rfl
          | ok shorturl => exact Or.inr rfl

theorem tryBody_uploadAttempts (env : Env) (event : IntentRequest)
    (request : GenRequest) :
    (tryBody env event request).2.uploadAttempts = [] ∨
      (tryBody env event request).2.uploadAttempts =
        [tempFileName env.randomSuffix] := by
  unfold tryBody
  try dsimp only
  cases hin : env.invokeOutcome request with
  | error e => exact Or.inl rfl
  | ok response_body =>
    try dsimp only
    cases harts : response_body.artifacts with
    | none => exact Or.inl rfl
    | some arts =>
      try dsimp only
      cases arts with
      | nil => exact Or.inl rfl
      | cons first rest =>
        simpa using gasi_uploadAttempts env event first.base64 ⟨1, [], 0, 0⟩

theorem handler_uploadAttempts (env : Env) (event : IntentRequest) :
    (lambda_handler env event).2.uploadAttempts = [] ∨
      (lambda_handler env event).2.uploadAttempts =
        [tempFileName env.randomSuffix] := by
  unfold lambda_handler
  try dsimp only
  have htr := tryBody_uploadAttempts env event
    (buildRequest env.style_preset event.inputTranscript)
  rcases htb : tryBody env event (buildRequest env.style_preset event.inputTranscript)
    with ⟨res, t⟩
  rw [htb] at htr
  cases res with
  | ok resp => exact htr
  | error e =>
    by_cases hce : e.isClientError <;> simp [hce] <;> simpa using htr

theorem handler_uploadKey (env : Env) (event : IntentRequest) (k : String)
    (hk : k ∈ (lambda_handler env event).2.uploadAttempts) :
    k = tempFileName env.randomSuffix := by
  rcases handler_uploadAttempts env event with h | h
  · rw [h] at hk
    simp at hk
  · rw [h] at hk
    simpa using hk

/-- C1 (counterexample): the claim says the handler always returns a
well-formed Fulfilled or Failed envelope and never silently returns
nothing.  When the model invocation raises a `ClientError`, the `except`
clause only logs and falls off the end of the function: the handler
returns `None` — no envelope at all. -/
theorem C1_counterexample :
    (lambda_handler envC1bad eventC1).1 = .ok none ∧
      returnsSomeEnvelope (lambda_handler envC1bad eventC1).1 = false := by
  constructor <;> decide

/-- C1 (amended): the handler terminates on every input (it is a total
function); when it returns an envelope, that envelope's outcome is
Fulfilled; it returns nothing (Python `None`) exactly when the try block
raised a `ClientError`; and every exception it lets propagate uncaught is
a non-`ClientError`.  No Failed envelope is ever produced. -/
theorem C1_handler_outcome (env : Env) (event : IntentRequest) :
    (∀ r, (lambda_handler env event).1 = .ok (some r) →
        r.sessionState.intent.state = "Fulfilled") ∧
    ((lambda_handler env event).1 = .ok none →
      ∃ e, (tryBody env event
          (buildRequest env.style_preset event.inputTranscript)).1 = .error e ∧
        e.isClientError = true) ∧
    (∀ e, (lambda_handler env event).1 = .error e → e.isClientError = false) :=
  ⟨fun r h => (handler_some_fields env event r h).1,
   handler_none_clientError env event,
   handler_error_notClient env event⟩

/-- C1 (witness): the amended theorem applied to a concrete success
environment. -/
theorem C1_handler_outcome_witness :
    respC1.sessionState.intent.state = "Fulfilled" :=
  (C1_handler_outcome envC1ok eventC1).1 respC1 (by decide)

/-- C2: the assembled generation request has exactly one positive prompt,
the utterance with weight 1, followed by the four fixed negative prompts
with weight -1; the negative-prompt tail and the numeric parameters
(guidance scale 5, seed 5450, 70 steps) and style preset are identical
for any two utterances. -/
theorem C2_request_shape (style p q : String) :
    (buildRequest style p).text_prompts =
      ⟨p, 1⟩ :: [⟨"poorly rendered", -1⟩, ⟨"poor background details", -1⟩,
        ⟨"poorly drawn", -1⟩, ⟨"disfigured features", -1⟩] ∧
    (buildRequest style p).text_prompts.filter
        (fun tp => decide (0 < tp.weight)) = [⟨p, 1⟩] ∧
    (buildRequest style p).text_prompts.tail =
      (buildRequest style q).text_prompts.tail ∧
    (buildRequest style p).cfg_scale = 5 ∧
    (buildRequest style p).seed = 5450 ∧
    (buildRequest style p).steps = 70 ∧
    (buildRequest style p).style_preset = style := by
  refine ⟨rfl, ?_, rfl, rfl, rfl, rfl, rfl⟩
  rfl

/-- C3 (code bug, evaluated): with the artifact persisted and the
pre-signed URL minted, a link-shortener failure does not fall back to the
unshortened URL: the pyshorteners exception is not a `ClientError`, so it
propagates uncaught and no envelope is returned.  The trace shows the
upload (1 attempt) and the presign call (1) had already happened. -/
theorem C3_shorten_failure_propagates :
    lambda_handler envC3 eventC3 =
      (.error (.shortenError "tinyurl.com unreachable"),
        ⟨1, ["generatedImage_42.png"], 1, 1⟩) ∧
      returnsSomeEnvelope (lambda_handler envC3 eventC3).1 = false := by
  constructor <;> decide

/-- C4 (counterexample): with a model response whose artifacts list is
empty, the outcome is not a Failed envelope with a DecodeError reason:
the subscript `["artifacts"][0]` raises an uncaught `IndexError` (though,
as the claim says, no upload is performed). -/
theorem C4_counterexample :
    (lambda_handler envC4x eventC4x).1 = .error .indexError ∧
      returnsEnvelopeWithState "Failed" (lambda_handler envC4x eventC4x).1 = false ∧
      (lambda_handler envC4x eventC4x).2.uploadAttempts = [] := by
  refine ⟨?_, ?_, ?_⟩ <;> decide

/-- C4 (amended): when the decoded model response has an empty artifacts
list the handler raises an uncaught `IndexError`, and when the key is
absent an uncaught `KeyError`; in both cases no storage upload is
attempted (and no presign or shorten call is made). -/
theorem C4_zero_artifacts (env : Env) (event : IntentRequest)
    (body : ResponseBody)
    (hin : env.invokeOutcome
        (buildRequest env.style_preset event.inputTranscript) = .ok body) :
    (body.artifacts = some [] →
      lambda_handler env event = (.error .indexError, ⟨1, [], 0, 0⟩)) ∧
    (body.artifacts = none →
      lambda_handler env event = (.error (.keyError "artifacts"), ⟨1, [], 0, 0⟩)) := by
  constructor
  · intro ha
    unfold lambda_handler tryBody
    dsimp only
    rw [hin]
    dsimp only
    rw [ha]
    rfl
  · intro ha
    unfold lambda_handler tryBody
    dsimp only
    rw [hin]
    dsimp only
    rw [ha]
    rfl

/-- C4 (witness): the amended theorem applied to a concrete environment
whose model response has an empty artifacts list. -/
theorem C4_zero_artifacts_witness :
    lambda_handler envC4 eventC4 = (.error .indexError, ⟨1, [], 0, 0⟩) :=
  (C4_zero_artifacts envC4 eventC4 ⟨some []⟩ (by decide)).1 (by decide)

/-- C5 (counterexample): when the model invocation raises a client/service
error, the outcome is not a Failed envelope: the handler catches the
error and returns `None` (the no-persistence and single-attempt parts of
the claim do hold, as the trace shows). -/
theorem C5_counterexample :
    (lambda_handler envC5x eventC5x).1 = .ok none ∧
      returnsEnvelopeWithState "Failed" (lambda_handler envC5x eventC5x).1 = false ∧
      (lambda_handler envC5x eventC5x).2 = ⟨1, [], 0, 0⟩ := by
  refine ⟨?_, ?_, ?_⟩ <;> decide

/-- C5 (amended): if the model invocation fails with a `ClientError`, the
pipeline performs no persistence (no upload attempt, no presign, no
shorten call), makes exactly one invocation attempt, and the handler
catches the error and returns no envelope (`None`) rather than a Failed
outcome. -/
theorem C5_client_error_caught (env : Env) (event : IntentRequest)
    (e : PyErr)
    (hin : env.invokeOutcome
        (buildRequest env.style_preset event.inputTranscript) = .error e)
    (hce : e.isClientError = true) :
    lambda_handler env event = (.ok none, ⟨1, [], 0, 0⟩) := by
  unfold lambda_handler tryBody
  dsimp only
  rw [hin]
  dsimp only
  simp [hce]

/-- C5 (witness): the amended theorem applied to a concrete environment
whose model invocation raises a `ClientError`. -/
theorem C5_client_error_caught_witness :
    lambda_handler envC5w eventC5w = (.ok none, ⟨1, [], 0, 0⟩) :=
  C5_client_error_caught envC5w eventC5w
    (.clientError "ServiceUnavailableException") (by decide) (by decide)

/-- C6 (counterexample): two distinct invocations (distinct environments)
with the same utterance and the same admissible random draw upload under
the same object key, so key distinctness is not guaranteed for any two
invocations — only for invocations whose random draws differ. -/
theorem C6_counterexample :
    (lambda_handler envC6a eventC6).2.uploadAttempts = ["generatedImage_5.png"] ∧
      (lambda_handler envC6b eventC6).2.uploadAttempts = ["generatedImage_5.png"] ∧
      envC6a ≠ envC6b ∧
      1 ≤ envC6a.randomSuffix ∧ envC6a.randomSuffix ≤ 100000000000000000 := by
  refine ⟨by decide, by decide, ?_, by decide, by decide⟩
  intro h
  exact absurd (congrArg (fun e => e.shortenOutcome "u") h) (by decide)

/-- C6 (amended): any two invocations whose random suffix draws differ
upload under distinct object keys (the key is injective in the draw), so
neither overwrites the other's stored object; two invocations collide
exactly when `random.randint` returns the same value for both. -/
theorem C6_distinct_suffix_distinct_keys (env1 env2 : Env)
    (event1 event2 : IntentRequest) (k1 k2 : String)
    (hne : env1.randomSuffix ≠ env2.randomSuffix)
    (h1 : k1 ∈ (lambda_handler env1 event1).2.uploadAttempts)
    (h2 : k2 ∈ (lambda_handler env2 event2).2.uploadAttempts) :
    k1 ≠ k2 := by
  rw [handler_uploadKey env1 event1 k1 h1, handler_uploadKey env2 event2 k2 h2]
  intro hc
  exact hne (tempFileName_inj hc)

/-- C6 (witness): the amended theorem applied to two concrete invocations
with draws 3 and 4. -/
theorem C6_distinct_suffix_distinct_keys_witness :
    "generatedImage_3.png" ≠ "generatedImage_4.png" :=
  C6_distinct_suffix_distinct_keys envC6w1 envC6w2 eventC6w eventC6w
    "generatedImage_3.png" "generatedImage_4.png"
    (by decide) (by decide) (by decide)

/-- C7 (counterexample): `close` does not leave its input request
unmodified — its first statement overwrites the intent's `state` on the
input event, here from "InProgress" to "Fulfilled". -/
theorem C7_counterexample :
    (close reqC7 [("locale", "en_US")] "Fulfilled" msgC7).1 ≠ reqC7 := by
  decide

/-- C7 (amended): `close` is deterministic and its only effect on the
input request is setting the intent's state to the given fulfillment
state (all other request fields are untouched); the returned envelope
carries the given session attributes and message, a Close dialog action,
the mutated intent, and echoes the session identifier and the request
attributes unmodified (absent stays absent, modelled by `Option`). -/
theorem C7_close_frame_and_echo (req : IntentRequest) (attrs : Attrs)
    (st : String) (msg : Message) :
    (close req attrs st msg).1.sessionState.intent.state = st ∧
    (close req attrs st msg).1.sessionState.intent.name =
      req.sessionState.intent.name ∧
    (close req attrs st msg).1.sessionState.sessionAttributes =
      req.sessionState.sessionAttributes ∧
    (close req attrs st msg).1.sessionId = req.sessionId ∧
    (close req attrs st msg).1.requestAttributes = req.requestAttributes ∧
    (close req attrs st msg).1.inputTranscript = req.inputTranscript ∧
    (close req attrs st msg).2.sessionState.sessionAttributes = attrs ∧
    (close req attrs st msg).2.sessionState.dialogAction = ⟨"Close"⟩ ∧
    (close req attrs st msg).2.sessionState.intent.state = st ∧
    (close req attrs st msg).2.sessionState.intent.name =
      req.sessionState.intent.name ∧
    (close req attrs st msg).2.messages = [msg] ∧
    (close req attrs st msg).2.sessionId = req.sessionId ∧
    (close req attrs st msg).2.requestAttributes = req.requestAttributes := by
  refine ⟨rfl, rfl, rfl, rfl, rfl, rfl, rfl, rfl, rfl, rfl, rfl, rfl, rfl⟩

/-- C8: `get_session_attributes` never fails (it is a total function): it
returns the event's session-attribute map when `sessionAttributes` is
present on `sessionState` and the empty map otherwise. -/
theorem C8_extract_session_attributes (req : IntentRequest) :
    (req.sessionState.sessionAttributes = none →
      get_session_attributes req = []) ∧
    (∀ m, req.sessionState.sessionAttributes = some m →
      get_session_attributes req = m) := by
  constructor
  · intro h
    unfold get_session_attributes
    dsimp only
    rw [h]
  · intro m h
    unfold get_session_attributes
    dsimp only
    rw [h]

/-- C8 (witness): the theorem applied to a concrete event carrying a
session-attribute map. -/
theorem C8_extract_session_attributes_witness :
    get_session_attributes reqC8 = [("k", "v")] :=
  (C8_extract_session_attributes reqC8).2 [("k", "v")] (by decide)

/-- C10: every envelope the handler actually returns has intent state
"Fulfilled" (and a Close dialog action): no code path constructs a
"Failed" envelope, since the only call to `close` passes "Fulfilled". -/
theorem C10_fulfilled_only (env : Env) (event : IntentRequest) :
    returnsEnvelopeWithState "Failed" ((lambda_handler env event).1) = false ∧
    ∀ r, (lambda_handler env event).1 = .ok (some r) →
      r.sessionState.intent.state = "Fulfilled" ∧
        r.sessionState.dialogAction = ⟨"Close"⟩ := by
  constructor
  · rcases hres : (lambda_handler env event).1 with e | o
    · rfl
    · cases o with
      | none => rfl
      | some resp =>
        have hst := (handler_some_fields env event resp hres).1
        simp [returnsEnvelopeWithState, hst]
  · intro r h
    exact handler_some_fields env event r h

/-- C10 (witness): the theorem applied to a concrete success
environment. -/
theorem C10_fulfilled_only_witness :
    respC10.sessionState.intent.state = "Fulfilled" ∧
      respC10.sessionState.dialogAction = ⟨"Close"⟩ :=
  (C10_fulfilled_only envC10 eventC10).2 respC10 (by decide)

end LexBedrockBot
